import Mathlib

/-!
Verification of the `symsrv` module of `pdblister` (src/symsrv/mod.rs).

Rust strings (`&str` / `String`) are modelled as lists of Unicode scalar
values (`List Char`), matching `str::chars`.  Machine integers `u32` and
`u128` are modelled as `Nat` with explicit `< 2 ^ 32` / `< 2 ^ 128` bounds
in the theorems.  Fallible parsing (`anyhow::Result`) is modelled with
`Except`.  The filesystem is modelled as an explicit predicate on paths,
passed to each call of the functions that consult it.
-/

set_option autoImplicit false
set_option maxRecDepth 8192

/-- Model of Rust strings: the sequence of Unicode scalar values. -/
abbrev RStr := List Char

/-! ### Rust hexadecimal formatting (`format!` with `{:x}`, `{:X}`, zero padding)

`rustHex dig n` renders `n` in base 16 using digit-character function `dig`,
with no padding and `0` rendered as a single digit — the behaviour of Rust's
`LowerHex`/`UpperHex` formatting without a width.  `zeroPad w s` models the
`0w` width specifier: left-pad with `'0'` up to width `w`. -/

/-- Lowercase hexadecimal digit characters, as produced by Rust `{:x}`. -/
def hexDigitL (n : Nat) : Char :=
  if n < 10 then Char.ofNat (48 + n) else Char.ofNat (87 + n)

/-- Uppercase hexadecimal digit characters, as produced by Rust `{:X}`. -/
def hexDigitU (n : Nat) : Char :=
  if n < 10 then Char.ofNat (48 + n) else Char.ofNat (55 + n)

/-- Digits of `n` in base 16, most significant first, empty for `0`.
The first argument is structural fuel; `n` iterations always suffice. -/
def hexAux (dig : Nat → Char) : Nat → Nat → RStr
  | 0, _ => []
  | fuel + 1, n =>
    if n = 0 then [] else hexAux dig fuel (n / 16) ++ [dig (n % 16)]

/-- Rust hexadecimal rendering of `n`: minimal digits, `0` renders as `"0"`. -/
def rustHex (dig : Nat → Char) (n : Nat) : RStr :=
  if n = 0 then [dig 0] else hexAux dig n n

/-- Rust `{:0w…}` zero padding: left-pad with `'0'` to width `w`. -/
def zeroPad (w : Nat) (s : RStr) : RStr :=
  List.replicate (w - s.length) '0' ++ s

/-- Numeric value of a hexadecimal digit character (0 for non-digits). -/
def hexCharVal (c : Char) : Nat :=
  if '0' ≤ c ∧ c ≤ '9' then c.toNat - 48
  else if 'a' ≤ c ∧ c ≤ 'f' then c.toNat - 87
  else if 'A' ≤ c ∧ c ≤ 'F' then c.toNat - 55
  else 0

/-- Numeric value of a hexadecimal digit string, most significant first. -/
def hexVal (s : RStr) : Nat :=
  s.foldl (fun a c => a * 16 + hexCharVal c) 0

/-- Lowercase hexadecimal digit character predicate. -/
def isLowerHexDigit (c : Char) : Bool :=
  ('0' ≤ c && c ≤ '9') || ('a' ≤ c && c ≤ 'f')

/-- Uppercase hexadecimal digit character predicate. -/
def isUpperHexDigit (c : Char) : Bool :=
  ('0' ≤ c && c ≤ '9') || ('A' ≤ c && c ≤ 'F')

/-! ### The identifier model (src/symsrv/mod.rs, `ExeInfo` / `PdbInfo` / `SymFileInfo`) -/

/-- Executable file information relevant to a symbol server (`struct ExeInfo`). -/
structure ExeInfo where
  timestamp : Nat
  size : Nat
deriving DecidableEq

/-- PDB file information relevant to a symbol server (`struct PdbInfo`). -/
structure PdbInfo where
  guid : Nat
  age : Nat
deriving DecidableEq

/-- `impl ToString for ExeInfo`: `format!("{:08x}{:x}", self.timestamp, self.size)`. -/
def ExeInfo.toString (i : ExeInfo) : RStr :=
  zeroPad 8 (rustHex hexDigitL i.timestamp) ++ rustHex hexDigitL i.size

/-- `impl ToString for PdbInfo`: `format!("{:032X}{:x}", self.guid, self.age)`. -/
def PdbInfo.toString (i : PdbInfo) : RStr :=
  zeroPad 32 (rustHex hexDigitU i.guid) ++ rustHex hexDigitL i.age

/-- Information about a symbol file resource (`enum SymFileInfo`). -/
inductive SymFileInfo where
  | exe (i : ExeInfo)
  | pdb (i : PdbInfo)
  | rawHash (h : RStr)
deriving DecidableEq

/-- `impl ToString for SymFileInfo`: dispatch to the variant's rendering. -/
def SymFileInfo.toString : SymFileInfo → RStr
  | .exe i => i.toString
  | .pdb i => i.toString
  | .rawHash h => h

/-! ### Lemmas about the hexadecimal rendering -/

theorem hexAux_zero (dig : Nat → Char) (f : Nat) : hexAux dig f 0 = [] := by
  cases f <;> simp [hexAux]

theorem hexVal_append_singleton (s : RStr) (c : Char) :
    hexVal (s ++ [c]) = 16 * hexVal s + hexCharVal c := by
  simp [hexVal, List.foldl_append, Nat.mul_comm]

theorem hexVal_hexAux (dig : Nat → Char) (hd : ∀ k, k < 16 → hexCharVal (dig k) = k) :
    ∀ f n, n ≤ f → hexVal (hexAux dig f n) = n := by
  intro f
  induction f with
  | zero =>
    intro n hn
    interval_cases n
    simp [hexAux, hexVal]
  | succ f ih =>
    intro n hn
    by_cases h0 : n = 0
    · subst h0; simp [hexAux, hexVal]
    · have hdiv : n / 16 ≤ f := by
        have : n / 16 < n := Nat.div_lt_self (Nat.pos_of_ne_zero h0) (by omega)
        omega
      calc hexVal (hexAux dig (f + 1) n)
          = hexVal (hexAux dig f (n / 16) ++ [dig (n % 16)]) := by
            simp [hexAux, h0]
        _ = 16 * hexVal (hexAux dig f (n / 16)) + hexCharVal (dig (n % 16)) :=
            hexVal_append_singleton _ _
        _ = 16 * (n / 16) + n % 16 := by
            rw [ih _ hdiv, hd _ (Nat.mod_lt _ (by omega))]
        _ = n := by omega

theorem length_hexAux_le (dig : Nat → Char) :
    ∀ f n k, n ≤ f → n < 16 ^ k → (hexAux dig f n).length ≤ k := by
  intro f
  induction f with
  | zero =>
    intro n k hn _
    interval_cases n
    simp [hexAux]
  | succ f ih =>
    intro n k hn hk
    by_cases h0 : n = 0
    · subst h0; simp [hexAux]
    · cases k with
      | zero => simp [Nat.pow_zero] at hk; omega
      | succ k =>
        have hdiv : n / 16 ≤ f := by
          have : n / 16 < n := Nat.div_lt_self (Nat.pos_of_ne_zero h0) (by omega)
          omega
        have hdk : n / 16 < 16 ^ k := by
          have h16 : n < 16 * 16 ^ k := by
            have : (16 : Nat) ^ (k + 1) = 16 * 16 ^ k := by ring
            omega
          exact Nat.div_lt_of_lt_mul (by omega)
        have := ih (n / 16) k hdiv hdk
        simp only [hexAux, h0, if_false, List.length_append, List.length_cons,
          List.length_nil]
        omega

theorem mem_hexAux (dig : Nat → Char) :
    ∀ f n c, c ∈ hexAux dig f n → ∃ k, k < 16 ∧ c = dig k := by
  intro f
  induction f with
  | zero => intro n c hc; simp [hexAux] at hc
  | succ f ih =>
    intro n c hc
    by_cases h0 : n = 0
    · subst h0; simp [hexAux] at hc
    · simp only [hexAux, h0, if_false, List.mem_append, List.mem_singleton] at hc
      rcases hc with hc | hc
      · exact ih _ _ hc
      · exact ⟨n % 16, Nat.mod_lt _ (by omega), hc⟩

theorem hexAux_head (dig : Nat → Char) :
    ∀ f n, 0 < n → n ≤ f →
      ∃ k rest, 0 < k ∧ k < 16 ∧ hexAux dig f n = dig k :: rest := by
  intro f
  induction f with
  | zero => intro n hn hf; omega
  | succ f ih =>
    intro n hn hf
    have h0 : ¬ n = 0 := by omega
    by_cases hsmall : n < 16
    · refine ⟨n, [], hn, hsmall, ?_⟩
      have : n / 16 = 0 := Nat.div_eq_of_lt hsmall
      simp [hexAux, h0, this, hexAux_zero, Nat.mod_eq_of_lt hsmall]
    · have hdivpos : 0 < n / 16 := Nat.div_pos (by omega) (by omega)
      have hdiv : n / 16 ≤ f := by
        have : n / 16 < n := Nat.div_lt_self (by omega) (by omega)
        omega
      obtain ⟨k, rest, hk0, hk16, heq⟩ := ih (n / 16) hdivpos hdiv
      refine ⟨k, rest ++ [dig (n % 16)], hk0, hk16, ?_⟩
      simp [hexAux, h0, heq]

theorem hexVal_rustHex (dig : Nat → Char) (hd : ∀ k, k < 16 → hexCharVal (dig k) = k)
    (n : Nat) : hexVal (rustHex dig n) = n := by
  by_cases h0 : n = 0
  · subst h0
    simp [rustHex, hexVal, hd 0 (by omega)]
  · simp only [rustHex, h0, if_false]
    exact hexVal_hexAux dig hd n n le_rfl

theorem length_rustHex_le (dig : Nat → Char) (n k : Nat) (hk : 0 < k)
    (hn : n < 16 ^ k) : (rustHex dig n).length ≤ k := by
  by_cases h0 : n = 0
  · subst h0; simp [rustHex]; omega
  · simp only [rustHex, h0, if_false]
    exact length_hexAux_le dig n n k le_rfl hn

theorem mem_rustHex (dig : Nat → Char) (n : Nat) (c : Char)
    (hc : c ∈ rustHex dig n) : ∃ k, k < 16 ∧ c = dig k := by
  by_cases h0 : n = 0
  · subst h0
    simp [rustHex] at hc
    exact ⟨0, by omega, hc⟩
  · simp only [rustHex, h0, if_false] at hc
    exact mem_hexAux dig n n c hc

theorem rustHex_head (dig : Nat → Char) (n : Nat) (hn : 0 < n) :
    ∃ k rest, 0 < k ∧ k < 16 ∧ rustHex dig n = dig k :: rest := by
  simp only [rustHex, Nat.pos_iff_ne_zero.mp hn, if_false]
  exact hexAux_head dig n n hn le_rfl

theorem length_zeroPad (w : Nat) (s : RStr) (h : s.length ≤ w) :
    (zeroPad w s).length = w := by
  simp [zeroPad]; omega

theorem hexVal_zeroPad (w : Nat) (s : RStr) : hexVal (zeroPad w s) = hexVal s := by
  have hz : ∀ m, List.foldl (fun a c => a * 16 + hexCharVal c) 0
      (List.replicate m '0') = 0 := by
    intro m
    induction m with
    | zero => rfl
    | succ m ih => simpa [List.replicate_succ, hexCharVal] using ih
  simp [zeroPad, hexVal, List.foldl_append, hz]

theorem mem_zeroPad (w : Nat) (s : RStr) (c : Char) (hc : c ∈ zeroPad w s) :
    c = '0' ∨ c ∈ s := by
  simp only [zeroPad, List.mem_append] at hc
  rcases hc with hc | hc
  · exact Or.inl (List.eq_of_mem_replicate hc)
  · exact Or.inr hc

theorem hexCharVal_hexDigitL : ∀ k, k < 16 → hexCharVal (hexDigitL k) = k := by
  decide

theorem hexCharVal_hexDigitU : ∀ k, k < 16 → hexCharVal (hexDigitU k) = k := by
  decide

theorem isLowerHexDigit_hexDigitL : ∀ k, k < 16 → isLowerHexDigit (hexDigitL k) = true := by
  decide

theorem isUpperHexDigit_hexDigitU : ∀ k, k < 16 → isUpperHexDigit (hexDigitU k) = true := by
  decide

theorem hexDigitL_ne_zero_char (k : Nat) (hk0 : 0 < k) (hk16 : k < 16) :
    hexDigitL k ≠ '0' := by
  intro h
  have hv := hexCharVal_hexDigitL k hk16
  rw [h] at hv
  have : hexCharVal '0' = 0 := by decide
  omega

theorem hexDigitU_ne_zero_char (k : Nat) (hk0 : 0 < k) (hk16 : k < 16) :
    hexDigitU k ≠ '0' := by
  intro h
  have hv := hexCharVal_hexDigitU k hk16
  rw [h] at hv
  have : hexCharVal '0' = 0 := by decide
  omega

/-- C1: for every `ExeInfo` with 32-bit `timestamp` `t` and 32-bit `size` `s`,
the canonical rendering is `t` as exactly 8 lowercase hexadecimal digits,
zero-padded, directly concatenated with `s` as lowercase hexadecimal with no
padding (no leading zero unless `s = 0`); in particular timestamp `0x5f4`
and size `0x2000` render as `"000005f42000"`. -/
theorem exeInfo_toString_canonical (t s : Nat) (ht : t < 2 ^ 32) (hs : s < 2 ^ 32) :
    (∃ a b, ExeInfo.toString ⟨t, s⟩ = a ++ b ∧
      a.length = 8 ∧ (∀ c ∈ a, isLowerHexDigit c = true) ∧ hexVal a = t ∧
      b = rustHex hexDigitL s ∧ (∀ c ∈ b, isLowerHexDigit c = true) ∧
      hexVal b = s ∧ (s = 0 → b = ['0']) ∧ (0 < s → b.head? ≠ some '0')) ∧
    ExeInfo.toString ⟨0x5f4, 0x2000⟩ = "000005f42000".data := by
  constructor
  · refine ⟨zeroPad 8 (rustHex hexDigitL t), rustHex hexDigitL s, rfl,
      ?_, ?_, ?_, rfl, ?_, ?_, ?_, ?_⟩
    · refine length_zeroPad 8 _ (length_rustHex_le _ t 8 (by omega) ?_)
      have h16 : (16 : Nat) ^ 8 = 2 ^ 32 := by norm_num
      omega
    · intro c hc
      rcases mem_zeroPad _ _ _ hc with h | h
      · subst h; decide
      · obtain ⟨k, hk, rfl⟩ := mem_rustHex _ _ _ h
        exact isLowerHexDigit_hexDigitL k hk
    · rw [hexVal_zeroPad]
      exact hexVal_rustHex _ hexCharVal_hexDigitL t
    · intro c hc
      obtain ⟨k, hk, rfl⟩ := mem_rustHex _ _ _ hc
      exact isLowerHexDigit_hexDigitL k hk
    · exact hexVal_rustHex _ hexCharVal_hexDigitL s
    · intro h0; subst h0; decide
    · intro hs0
      obtain ⟨k, rest, hk0, hk16, heq⟩ := rustHex_head hexDigitL s hs0
      rw [heq]
      simp only [List.head?_cons]
      exact fun h => hexDigitL_ne_zero_char k hk0 hk16 (Option.some.inj h)
  · decide

/-- Witness for C1 at timestamp `0x5f4`, size `0x2000`. -/
theorem exeInfo_toString_canonical_witness :
    ExeInfo.toString ⟨0x5f4, 0x2000⟩ = "000005f42000".data :=
  (exeInfo_toString_canonical 0x5f4 0x2000 (by norm_num) (by norm_num)).2

/-- C2: for every `PdbInfo` with 128-bit `guid` `g` and 32-bit `age` `a`, the
canonical rendering is `g` as exactly 32 uppercase hexadecimal digits,
zero-padded with no separators, concatenated with `a` as lowercase
hexadecimal with no padding; zero values render normally (`age 0` renders
as `"0"`, never omitted). -/
theorem pdbInfo_toString_canonical (g a : Nat) (hg : g < 2 ^ 128) (ha : a < 2 ^ 32) :
    (∃ x y, PdbInfo.toString ⟨g, a⟩ = x ++ y ∧
      x.length = 32 ∧ (∀ c ∈ x, isUpperHexDigit c = true) ∧ hexVal x = g ∧
      y = rustHex hexDigitL a ∧ (∀ c ∈ y, isLowerHexDigit c = true) ∧
      hexVal y = a ∧ (a = 0 → y = ['0']) ∧ (0 < a → y.head? ≠ some '0')) ∧
    PdbInfo.toString ⟨0xABC, 10⟩ = List.replicate 29 '0' ++ "ABCa".data := by
  constructor
  · refine ⟨zeroPad 32 (rustHex hexDigitU g), rustHex hexDigitL a, rfl,
      ?_, ?_, ?_, rfl, ?_, ?_, ?_, ?_⟩
    · refine length_zeroPad 32 _ (length_rustHex_le _ g 32 (by omega) ?_)
      have h16 : (16 : Nat) ^ 32 = 2 ^ 128 := by norm_num
      omega
    · intro c hc
      rcases mem_zeroPad _ _ _ hc with h | h
      · subst h; decide
      · obtain ⟨k, hk, rfl⟩ := mem_rustHex _ _ _ h
        exact isUpperHexDigit_hexDigitU k hk
    · rw [hexVal_zeroPad]
      exact hexVal_rustHex _ hexCharVal_hexDigitU g
    · intro c hc
      obtain ⟨k, hk, rfl⟩ := mem_rustHex _ _ _ hc
      exact isLowerHexDigit_hexDigitL k hk
    · exact hexVal_rustHex _ hexCharVal_hexDigitL a
    · intro h0; subst h0; decide
    · intro ha0
      obtain ⟨k, rest, hk0, hk16, heq⟩ := rustHex_head hexDigitL a ha0
      rw [heq]
      simp only [List.head?_cons]
      exact fun h => hexDigitL_ne_zero_char k hk0 hk16 (Option.some.inj h)
  · decide

/-- Witness for C2 at guid `0xABC`, age `10`. -/
theorem pdbInfo_toString_canonical_witness :
    PdbInfo.toString ⟨0xABC, 10⟩ = List.replicate 29 '0' ++ "ABCa".data :=
  (pdbInfo_toString_canonical 0xABC 10 (by norm_num) (by norm_num)).2

/-! ### The spec parser (src/symsrv/mod.rs, `SymSrvSpec` / `SymSrvList`)

`rustSplit` models `str::split(char)`: splitting the empty string yields one
empty piece, and a separator at either end yields an empty piece there.
`eqIgnoreAsciiCase` models `str::eq_ignore_ascii_case`.  `PathBuf` is
modelled by the string of characters it was built from, and
`Path::display` by the identity on that string. -/

/-- Rust `str::split(sep)`, producing the list of pieces between separators. -/
def rustSplit (sep : Char) : RStr → List RStr
  | [] => [[]]
  | c :: cs =>
    match rustSplit sep cs with
    | [] => [[]]
    | h :: t => if c = sep then [] :: h :: t else (c :: h) :: t

/-- ASCII lowercasing of one character (`u8::to_ascii_lowercase`). -/
def asciiLower (c : Char) : Char :=
  if 'A' ≤ c ∧ c ≤ 'Z' then Char.ofNat (c.toNat + 32) else c

/-- Rust `str::eq_ignore_ascii_case`. -/
def eqIgnoreAsciiCase (a b : RStr) : Bool :=
  a.map asciiLower == b.map asciiLower

/-- The parse failures of the module: the malformed-specification message of
`SymSrvSpec::from_str` and the (unreachable) empty-list message of
`SymSrvList::from_str`. -/
inductive ParseError where
  | unsupportedForm
  | invalidServerString
deriving DecidableEq

/-- A symbol server defined with the syntax `SRV*<cache_path>*<server_url>`
(`struct SymSrvSpec`). -/
structure SymSrvSpec where
  server_url : RStr
  cache_path : RStr
deriving DecidableEq

/-- `impl FromStr for SymSrvSpec`: split on `*`, require the `SRV` keyword
(ASCII case-insensitively) and exactly three tokens. -/
def SymSrvSpec.fromStr (srv : RStr) : Except ParseError SymSrvSpec :=
  let directives := rustSplit '*' srv
  match directives.head? with
  | some x =>
    if eqIgnoreAsciiCase x ("SRV".data) then
      if directives.length ≠ 3 then .error .unsupportedForm
      else .ok { server_url := directives.getD 2 [], cache_path := directives.getD 1 [] }
    else .error .unsupportedForm
  | none => .error .unsupportedForm

/-- `impl Display for SymSrvSpec`: `write!(f, "SRV*{}*{}", cache_path.display(), server_url)`. -/
def SymSrvSpec.display (s : SymSrvSpec) : RStr :=
  "SRV*".data ++ s.cache_path ++ "*".data ++ s.server_url

/-- A list of symbol servers (`struct SymSrvList`). -/
structure SymSrvList where
  specs : List SymSrvSpec
deriving DecidableEq

/-- Rust `Iterator::collect::<Result<Vec<_>, _>>` over a mapped list:
left-to-right, stopping at the first error. -/
def mapCollect {α β ε : Type} (f : α → Except ε β) : List α → Except ε (List β)
  | [] => .ok []
  | x :: xs =>
    match f x with
    | .error e => .error e
    | .ok b =>
      match mapCollect f xs with
      | .error e => .error e
      | .ok bs => .ok (b :: bs)

/-- `impl FromStr for SymSrvList`: split on `;` and parse each piece. -/
def SymSrvList.fromStr (s : RStr) : Except ParseError SymSrvList :=
  let server_list := rustSplit ';' s
  if server_list.isEmpty then .error .invalidServerString
  else
    match mapCollect SymSrvSpec.fromStr server_list with
    | .error e => .error e
    | .ok vec => .ok ⟨vec⟩

/-! ### Lemmas about splitting and parsing -/

theorem rustSplit_ne_nil (sep : Char) : ∀ s, rustSplit sep s ≠ [] := by
  intro s
  induction s with
  | nil => simp [rustSplit]
  | cons c cs ih =>
    cases hsplit : rustSplit sep cs with
    | nil => exact absurd hsplit ih
    | cons h t =>
      by_cases hc : c = sep <;> simp [rustSplit, hsplit, hc]

theorem rustSplit_cons_of_ne (sep c : Char) (cs : RStr) (hc : c ≠ sep) :
    ∃ h t, rustSplit sep cs = h :: t ∧ rustSplit sep (c :: cs) = (c :: h) :: t := by
  cases hsplit : rustSplit sep cs with
  | nil => exact absurd hsplit (rustSplit_ne_nil sep cs)
  | cons h t => exact ⟨h, t, rfl, by simp [rustSplit, hsplit, hc]⟩

theorem not_mem_of_mem_rustSplit (sep : Char) :
    ∀ s t, t ∈ rustSplit sep s → sep ∉ t := by
  intro s
  induction s with
  | nil =>
    intro t ht
    simp [rustSplit] at ht
    subst ht
    simp
  | cons c cs ih =>
    intro t ht
    cases hsplit : rustSplit sep cs with
    | nil => exact absurd hsplit (rustSplit_ne_nil sep cs)
    | cons h tl =>
      by_cases hc : c = sep
      · simp only [rustSplit, hsplit, hc, if_true, List.mem_cons] at ht
        rcases ht with rfl | ht
        · simp
        · rcases ht with h1 | h1
          · exact h1 ▸ ih h (hsplit ▸ List.mem_cons_self h tl)
          · exact ih t (hsplit ▸ List.mem_cons_of_mem h h1)
      · simp only [rustSplit, hsplit, hc, if_false, List.mem_cons] at ht
        rcases ht with rfl | ht
        · intro hmem
          rcases List.mem_cons.mp hmem with rfl | hmem
          · exact hc rfl
          · exact ih h (hsplit ▸ List.mem_cons_self h tl) hmem
        · exact ih t (hsplit ▸ List.mem_cons_of_mem h ht)

theorem rustSplit_append_sep (sep : Char) :
    ∀ x y, sep ∉ x → rustSplit sep (x ++ sep :: y) = x :: rustSplit sep y := by
  intro x
  induction x with
  | nil =>
    intro y _
    cases hsplit : rustSplit sep y with
    | nil => exact absurd hsplit (rustSplit_ne_nil sep y)
    | cons h t => simp [rustSplit, hsplit]
  | cons c x ih =>
    intro y hmem
    have hc : ¬ c = sep := fun h => hmem (h ▸ List.mem_cons_self c x)
    have hx : sep ∉ x := fun h => hmem (List.mem_cons_of_mem c h)
    simp only [List.cons_append, rustSplit, List.append_eq]
    rw [ih y hx]
    simp [hc]

/-- Full characterization of `SymSrvSpec::from_str`: it succeeds exactly when
the `*`-split has three tokens whose first is `SRV` up to ASCII case, and
then returns the second and third tokens verbatim. -/
theorem fromStr_spec (s : RStr) :
    (((rustSplit '*' s).length = 3 ∧
        eqIgnoreAsciiCase ((rustSplit '*' s).headD []) ("SRV".data) = true) →
      SymSrvSpec.fromStr s =
        .ok ⟨(rustSplit '*' s).getD 2 [], (rustSplit '*' s).getD 1 []⟩) ∧
    (¬ ((rustSplit '*' s).length = 3 ∧
        eqIgnoreAsciiCase ((rustSplit '*' s).headD []) ("SRV".data) = true) →
      SymSrvSpec.fromStr s = .error .unsupportedForm) := by
  cases hsplit : rustSplit '*' s with
  | nil => exact absurd hsplit (rustSplit_ne_nil '*' s)
  | cons h t =>
    constructor
    · rintro ⟨hlen, hkw⟩
      simp only [hsplit, List.headD_cons] at hlen hkw
      simp [SymSrvSpec.fromStr, hsplit, hkw, hlen]
    · intro hneg
      simp only [hsplit, List.headD_cons, List.length_cons] at hneg
      by_cases hkw : eqIgnoreAsciiCase h ("SRV".data) = true
      · have hlen : ¬ (t.length + 1 = 3) := fun hl => hneg ⟨hl, hkw⟩
        simp [SymSrvSpec.fromStr, hsplit, hkw, hlen]
      · simp only [Bool.not_eq_true] at hkw
        simp [SymSrvSpec.fromStr, hsplit, hkw]

theorem getD_mem_of_lt {α : Type} (l : List α) (n : Nat) (d : α) (h : n < l.length) :
    l.getD n d ∈ l := by
  rw [List.getD_eq_getElem?_getD, List.getElem?_eq_getElem h, Option.getD_some]
  exact List.getElem_mem h

theorem mapCollect_ok_forall2 {α β ε : Type} (f : α → Except ε β) :
    ∀ l r, mapCollect f l = .ok r →
      List.Forall₂ (fun a b => f a = .ok b) l r := by
  intro l
  induction l with
  | nil =>
    intro r h
    simp only [mapCollect, Except.ok.injEq] at h
    subst h
    exact List.Forall₂.nil
  | cons x xs ih =>
    intro r h
    simp only [mapCollect] at h
    cases hfx : f x with
    | error e => rw [hfx] at h; cases h
    | ok b =>
      rw [hfx] at h
      cases hmc : mapCollect f xs with
      | error e => rw [hmc] at h; cases h
      | ok bs =>
        rw [hmc] at h
        cases h
        exact List.Forall₂.cons hfx (ih bs hmc)

theorem mapCollect_ok_mem {α β ε : Type} (f : α → Except ε β) :
    ∀ l r, mapCollect f l = .ok r → ∀ x, x ∈ l → ∃ b, f x = .ok b := by
  intro l
  induction l with
  | nil => intro r _ x hx; cases hx
  | cons y ys ih =>
    intro r h x hx
    simp only [mapCollect] at h
    cases hfy : f y with
    | error e => rw [hfy] at h; cases h
    | ok b =>
      rw [hfy] at h
      cases hmc : mapCollect f ys with
      | error e => rw [hmc] at h; cases h
      | ok bs =>
        rcases List.mem_cons.mp hx with rfl | hx
        · exact ⟨b, hfy⟩
        · exact ih bs hmc x hx

theorem mapCollect_error_exists {α β ε : Type} (f : α → Except ε β) :
    ∀ l e, mapCollect f l = .error e → ∃ x, x ∈ l ∧ f x = .error e := by
  intro l
  induction l with
  | nil => intro e h; cases h
  | cons y ys ih =>
    intro e h
    simp only [mapCollect] at h
    cases hfy : f y with
    | error e' =>
      rw [hfy] at h
      cases h
      exact ⟨y, List.mem_cons_self y ys, hfy⟩
    | ok b =>
      rw [hfy] at h
      cases hmc : mapCollect f ys with
      | error e' =>
        rw [hmc] at h
        cases h
        obtain ⟨x, hx, hfx⟩ := ih e hmc
        exact ⟨x, List.mem_cons_of_mem y hx, hfx⟩
      | ok bs => rw [hmc] at h; cases h

theorem mapCollect_first_error {α β ε : Type} (f : α → Except ε β) :
    ∀ pre t suf e, (∀ p ∈ pre, ∃ b, f p = .ok b) → f t = .error e →
      mapCollect f (pre ++ t :: suf) = .error e := by
  intro pre
  induction pre with
  | nil =>
    intro t suf e _ hft
    simp [mapCollect, hft]
  | cons p pre ih =>
    intro t suf e hpre hft
    obtain ⟨b, hb⟩ := hpre p (List.mem_cons_self p pre)
    have hrec := ih t suf e (fun q hq => hpre q (List.mem_cons_of_mem p hq)) hft
    simp [mapCollect, hb, hrec]

theorem symSrvList_fromStr_eq (s : RStr) :
    SymSrvList.fromStr s =
      match mapCollect SymSrvSpec.fromStr (rustSplit ';' s) with
      | .error e => .error e
      | .ok vec => .ok ⟨vec⟩ := by
  have hne := rustSplit_ne_nil ';' s
  have hemp : (rustSplit ';' s).isEmpty = false := by
    cases h : rustSplit ';' s with
    | nil => exact absurd h hne
    | cons a l => rfl
  simp [SymSrvList.fromStr, hemp]

theorem rustSplit_eq_single (sep : Char) : ∀ u, sep ∉ u → rustSplit sep u = [u] := by
  intro u
  induction u with
  | nil => intro _; rfl
  | cons c cs ih =>
    intro h
    have hc : ¬ c = sep := fun hh => h (by rw [hh]; exact List.mem_cons_self sep cs)
    have hcs := ih (fun hm => h (List.mem_cons_of_mem c hm))
    simp [rustSplit, hcs, hc]

theorem fromStr_error_unsupported (t : RStr) (e : ParseError)
    (h : SymSrvSpec.fromStr t = .error e) : e = ParseError.unsupportedForm := by
  by_cases hcond : ((rustSplit '*' t).length = 3 ∧
      eqIgnoreAsciiCase ((rustSplit '*' t).headD []) ("SRV".data) = true)
  · rw [(fromStr_spec t).1 hcond] at h; cases h
  · rw [(fromStr_spec t).2 hcond] at h
    cases h
    rfl

/-- C3: for every input, parsing a single server specification succeeds iff
splitting on `*` yields exactly three tokens whose first equals `"SRV"`
ASCII-case-insensitively; on success `cache_path` is the second token and
`server_url` the third, verbatim, and any other token count or keyword
fails with the malformed-specification error. -/
theorem symSrvSpec_parse_characterization (s : RStr) :
    (((rustSplit '*' s).length = 3 ∧
        eqIgnoreAsciiCase ((rustSplit '*' s).headD []) ("SRV".data) = true) →
      SymSrvSpec.fromStr s =
        .ok ⟨(rustSplit '*' s).getD 2 [], (rustSplit '*' s).getD 1 []⟩) ∧
    (¬ ((rustSplit '*' s).length = 3 ∧
        eqIgnoreAsciiCase ((rustSplit '*' s).headD []) ("SRV".data) = true) →
      SymSrvSpec.fromStr s = .error .unsupportedForm) ∧
    (∀ spec, SymSrvSpec.fromStr s = .ok spec →
      spec.server_url = (rustSplit '*' s).getD 2 [] ∧
      spec.cache_path = (rustSplit '*' s).getD 1 []) := by
  refine ⟨(fromStr_spec s).1, (fromStr_spec s).2, ?_⟩
  intro spec hspec
  by_cases hcond : ((rustSplit '*' s).length = 3 ∧
      eqIgnoreAsciiCase ((rustSplit '*' s).headD []) ("SRV".data) = true)
  · rw [(fromStr_spec s).1 hcond] at hspec
    cases hspec
    exact ⟨rfl, rfl⟩
  · rw [(fromStr_spec s).2 hcond] at hspec
    cases hspec

/-- Witness for C3: a valid spec (with its case-insensitive keyword) parses
to the expected record, and a wrong keyword fails. -/
theorem symSrvSpec_parse_characterization_witness :
    SymSrvSpec.fromStr ("srv*C:\\Symbols*https://example.com/syms".data) =
      .ok ⟨"https://example.com/syms".data, "C:\\Symbols".data⟩ ∧
    SymSrvSpec.fromStr ("FOO*a*b".data) = .error .unsupportedForm := by
  constructor
  · have h := (symSrvSpec_parse_characterization
      ("srv*C:\\Symbols*https://example.com/syms".data)).1 (by decide)
    exact h.trans (by rfl)
  · exact (symSrvSpec_parse_characterization ("FOO*a*b".data)).2.1 (by decide)

/-- C4: list parsing splits on `;`, parses each piece in order, aborts on the
first failure with that failure's error, fails on the empty input (one empty
token), and parses `"SRV*A*urlA;SRV*B*urlB"` to the ordered two-element
list. -/
theorem symSrvList_parse_characterization (s : RStr) :
    (∀ l, SymSrvList.fromStr s = .ok ⟨l⟩ →
      List.Forall₂ (fun t sp => SymSrvSpec.fromStr t = .ok sp) (rustSplit ';' s) l) ∧
    (∀ pre t suf e, rustSplit ';' s = pre ++ t :: suf →
      (∀ p ∈ pre, ∃ sp, SymSrvSpec.fromStr p = .ok sp) →
      SymSrvSpec.fromStr t = .error e →
      SymSrvList.fromStr s = .error e) ∧
    SymSrvList.fromStr [] = .error .unsupportedForm ∧
    SymSrvList.fromStr ("SRV*A*urlA;SRV*B*urlB".data) =
      .ok ⟨[⟨"urlA".data, "A".data⟩, ⟨"urlB".data, "B".data⟩]⟩ := by
  refine ⟨?_, ?_, rfl, rfl⟩
  · intro l h
    rw [symSrvList_fromStr_eq] at h
    cases hmc : mapCollect SymSrvSpec.fromStr (rustSplit ';' s) with
    | error e => rw [hmc] at h; cases h
    | ok vec =>
      rw [hmc] at h
      cases h
      exact mapCollect_ok_forall2 _ _ _ hmc
  · intro pre t suf e hsplit hpre hft
    rw [symSrvList_fromStr_eq, hsplit,
      mapCollect_first_error SymSrvSpec.fromStr pre t suf e hpre hft]

/-- Witness for C4: the two-server example, checked piecewise in order. -/
theorem symSrvList_parse_characterization_witness :
    List.Forall₂ (fun t sp => SymSrvSpec.fromStr t = .ok sp)
      (rustSplit ';' ("SRV*A*urlA;SRV*B*urlB".data))
      [⟨"urlA".data, "A".data⟩, ⟨"urlB".data, "B".data⟩] :=
  (symSrvList_parse_characterization ("SRV*A*urlA;SRV*B*urlB".data)).1 _ rfl

/-- C9 counterexample: parsing `"SRV*a*"` succeeds although the resulting
`server_url` is empty, refuting the non-empty-URL invariant. -/
theorem symSrvSpec_empty_url_counterexample :
    ¬ (∀ s spec, SymSrvSpec.fromStr s = .ok spec → spec.server_url ≠ []) := by
  intro hinv
  exact hinv ("SRV*a*".data) ⟨[], "a".data⟩ rfl rfl

/-- C9 amended: a successful parse fixes `server_url` to the third `*`-token
verbatim, but that token — hence `server_url` — may be empty. -/
theorem symSrvSpec_parse_url_third_token (s : RStr) (spec : SymSrvSpec)
    (h : SymSrvSpec.fromStr s = .ok spec) :
    spec.server_url = (rustSplit '*' s).getD 2 [] := by
  by_cases hcond : ((rustSplit '*' s).length = 3 ∧
      eqIgnoreAsciiCase ((rustSplit '*' s).headD []) ("SRV".data) = true)
  · rw [(fromStr_spec s).1 hcond] at h
    cases h
    rfl
  · rw [(fromStr_spec s).2 hcond] at h
    cases h

/-- Witness for the amended C9 at input `"SRV*a*u"`. -/
theorem symSrvSpec_parse_url_third_token_witness :
    (SymSrvSpec.mk ("u".data) ("a".data)).server_url =
      (rustSplit '*' ("SRV*a*u".data)).getD 2 [] :=
  symSrvSpec_parse_url_third_token ("SRV*a*u".data) ⟨"u".data, "a".data⟩ rfl

theorem whitespace_cases (c : Char) (hc : c.isWhitespace = true) :
    c = ' ' ∨ c = '\t' ∨ c = '\r' ∨ c = '\n' := by
  have h2 : ((c = ' ' ∨ c = '\t') ∨ c = '\r') ∨ c = '\n' := by
    simpa [Char.isWhitespace] using hc
  tauto

theorem fromStr_leading_whitespace (c : Char) (cs : RStr) (hc : c.isWhitespace = true) :
    SymSrvSpec.fromStr (c :: cs) = .error .unsupportedForm := by
  have hcstar : c ≠ '*' := by
    rcases whitespace_cases c hc with rfl | rfl | rfl | rfl <;> decide
  obtain ⟨h, t, hsplit, hsplit2⟩ := rustSplit_cons_of_ne '*' c cs hcstar
  apply (fromStr_spec (c :: cs)).2
  rintro ⟨hlen, hkw⟩
  rw [hsplit2] at hkw
  simp only [List.headD_cons] at hkw
  have hmap : (c :: h).map asciiLower = ("SRV".data).map asciiLower := by
    simpa [eqIgnoreAsciiCase] using hkw
  have hhead := congrArg (fun l => l.head?) hmap
  simp only [List.map_cons, List.head?_cons] at hhead
  have hlow : some (asciiLower c) = some 's' := by
    exact hhead.trans (by rfl)
  have hlow2 : asciiLower c = 's' := Option.some.inj hlow
  rcases whitespace_cases c hc with rfl | rfl | rfl | rfl <;>
    exact absurd hlow2 (by decide)

/-- C10 counterexample: a segment carrying trailing whitespace around the
otherwise valid spec `SRV*a*u` parses successfully (the whitespace is
absorbed into `server_url`), so the whole list parse does not fail. -/
theorem symSrvList_trailing_whitespace_counterexample :
    SymSrvList.fromStr ("SRV*a*u ;SRV*b*v".data) =
      .ok ⟨[⟨"u ".data, "a".data⟩, ⟨"v".data, "b".data⟩]⟩ := rfl

/-- C10 amended: no whitespace trimming is performed; a segment with leading
whitespace fails the unstripped keyword comparison and aborts the whole list
parse, while trailing whitespace is absorbed verbatim into `server_url` and
does not cause failure. -/
theorem symSrvList_whitespace_behavior :
    (∀ s seg c cs, seg ∈ rustSplit ';' s → seg = c :: cs → c.isWhitespace = true →
      SymSrvList.fromStr s = .error .unsupportedForm) ∧
    SymSrvList.fromStr ("SRV*a*u;SRV*b*v ".data) =
      .ok ⟨[⟨"u".data, "a".data⟩, ⟨"v ".data, "b".data⟩]⟩ := by
  constructor
  · intro s seg c cs hmem hseg hcws
    have hfail : SymSrvSpec.fromStr seg = .error .unsupportedForm := by
      rw [hseg]
      exact fromStr_leading_whitespace c cs hcws
    rw [symSrvList_fromStr_eq]
    cases hmc : mapCollect SymSrvSpec.fromStr (rustSplit ';' s) with
    | ok vec =>
      obtain ⟨b, hb⟩ := mapCollect_ok_mem _ _ _ hmc seg hmem
      rw [hfail] at hb
      cases hb
    | error e =>
      obtain ⟨x, hx, hfx⟩ := mapCollect_error_exists _ _ _ hmc
      have he := fromStr_error_unsupported x e hfx
      exact congrArg Except.error he
  · rfl

/-- Witness for the amended C10: a leading space makes the list parse fail. -/
theorem symSrvList_whitespace_behavior_witness :
    SymSrvList.fromStr (" SRV*a*u".data) = .error .unsupportedForm :=
  (symSrvList_whitespace_behavior).1 (" SRV*a*u".data) (" SRV*a*u".data)
    ' ' ("SRV*a*u".data) (by decide) rfl (by decide)

/-- C7: rendering a parsed spec reproduces `SRV*<cache_path>*<server_url>`
(the `Display` implementation), and re-parsing that rendering recovers the
same spec. -/
theorem symSrvSpec_display_roundtrip (s : RStr) (spec : SymSrvSpec)
    (h : SymSrvSpec.fromStr s = .ok spec) :
    SymSrvSpec.display spec =
      "SRV*".data ++ spec.cache_path ++ "*".data ++ spec.server_url ∧
    SymSrvSpec.fromStr (SymSrvSpec.display spec) = .ok spec := by
  refine ⟨rfl, ?_⟩
  by_cases hcond : ((rustSplit '*' s).length = 3 ∧
      eqIgnoreAsciiCase ((rustSplit '*' s).headD []) ("SRV".data) = true)
  case neg =>
    rw [(fromStr_spec s).2 hcond] at h
    cases h
  case pos =>
  rw [(fromStr_spec s).1 hcond] at h
  cases h
  obtain ⟨hlen, _⟩ := hcond
  have hmem1 : (rustSplit '*' s).getD 1 [] ∈ rustSplit '*' s :=
    getD_mem_of_lt _ 1 [] (by omega)
  have hmem2 : (rustSplit '*' s).getD 2 [] ∈ rustSplit '*' s :=
    getD_mem_of_lt _ 2 [] (by omega)
  have hc1 := not_mem_of_mem_rustSplit '*' s _ hmem1
  have hc2 := not_mem_of_mem_rustSplit '*' s _ hmem2
  have hform : SymSrvSpec.display
      ⟨(rustSplit '*' s).getD 2 [], (rustSplit '*' s).getD 1 []⟩ =
      "SRV".data ++ '*' ::
        ((rustSplit '*' s).getD 1 [] ++ '*' :: (rustSplit '*' s).getD 2 []) := by
    simp [SymSrvSpec.display]
  have hsplitd : rustSplit '*' (SymSrvSpec.display
      ⟨(rustSplit '*' s).getD 2 [], (rustSplit '*' s).getD 1 []⟩) =
      ["SRV".data, (rustSplit '*' s).getD 1 [], (rustSplit '*' s).getD 2 []] := by
    rw [hform, rustSplit_append_sep '*' _ _ (by decide),
      rustSplit_append_sep '*' _ _ hc1, rustSplit_eq_single '*' _ hc2]
  have happly := (fromStr_spec (SymSrvSpec.display
      ⟨(rustSplit '*' s).getD 2 [], (rustSplit '*' s).getD 1 []⟩)).1 (by
    rw [hsplitd]
    exact ⟨rfl, show eqIgnoreAsciiCase ("SRV".data) ("SRV".data) = true by decide⟩)
  rw [happly, hsplitd]
  rfl

/-- Witness for C7 at input `"SRV*c*u"`. -/
theorem symSrvSpec_display_roundtrip_witness :
    SymSrvSpec.display ⟨"u".data, "c".data⟩ =
      "SRV*".data ++ "c".data ++ "*".data ++ "u".data ∧
    SymSrvSpec.fromStr (SymSrvSpec.display ⟨"u".data, "c".data⟩) =
      .ok ⟨"u".data, "c".data⟩ :=
  symSrvSpec_display_roundtrip ("SRV*c*u".data) ⟨"u".data, "c".data⟩ rfl

/-! ### The cache layout resolver (src/symsrv/mod.rs, the tier-prefix and two-tier functions)

`str::to_lowercase` is modelled faithfully from the Unicode 14.0.0
character database: every character maps through its one-to-one lowercase
mapping (`lowercaseTable`, listing exactly the codepoints whose lowercase
differs from themselves), except that U+0130 (LATIN CAPITAL LETTER I WITH
DOT ABOVE) lowercases to the two-character sequence U+0069 U+0307 — the
one length-changing lowercase mapping — and U+03A3 (GREEK CAPITAL LETTER
SIGMA) is subject to the context-sensitive Final_Sigma rule: it lowercases
to U+03C2 when preceded (skipping Case_Ignorable characters) by a cased
character and not so followed, and to U+03C3 otherwise.  The
Case_Ignorable set and the relevant part of the Cased set are given as
inclusive codepoint ranges. -/

set_option maxHeartbeats 2000000 in
/-- Codepoints whose one-to-one Unicode lowercase mapping differs from the
codepoint itself, with their mappings (Unicode 14.0.0). -/
def lowercaseTable : List (Nat × Nat) := [
    (65, 97), (66, 98), (67, 99), (68, 100), (69, 101), (70, 102), (71, 103),
    (72, 104), (73, 105), (74, 106), (75, 107), (76, 108), (77, 109), (78, 110),
    (79, 111), (80, 112), (81, 113), (82, 114), (83, 115), (84, 116), (85, 117),
    (86, 118), (87, 119), (88, 120), (89, 121), (90, 122), (192, 224), (193, 225),
    (194, 226), (195, 227), (196, 228), (197, 229), (198, 230), (199, 231), (200, 232),
    (201, 233), (202, 234), (203, 235), (204, 236), (205, 237), (206, 238), (207, 239),
    (208, 240), (209, 241), (210, 242), (211, 243), (212, 244), (213, 245), (214, 246),
    (216, 248), (217, 249), (218, 250), (219, 251), (220, 252), (221, 253), (222, 254),
    (256, 257), (258, 259), (260, 261), (262, 263), (264, 265), (266, 267), (268, 269),
    (270, 271), (272, 273), (274, 275), (276, 277), (278, 279), (280, 281), (282, 283),
    (284, 285), (286, 287), (288, 289), (290, 291), (292, 293), (294, 295), (296, 297),
    (298, 299), (300, 301), (302, 303), (306, 307), (308, 309), (310, 311), (313, 314),
    (315, 316), (317, 318), (319, 320), (321, 322), (323, 324), (325, 326), (327, 328),
    (330, 331), (332, 333), (334, 335), (336, 337), (338, 339), (340, 341), (342, 343),
    (344, 345), (346, 347), (348, 349), (350, 351), (352, 353), (354, 355), (356, 357),
    (358, 359), (360, 361), (362, 363), (364, 365), (366, 367), (368, 369), (370, 371),
    (372, 373), (374, 375), (376, 255), (377, 378), (379, 380), (381, 382), (385, 595),
    (386, 387), (388, 389), (390, 596), (391, 392), (393, 598), (394, 599), (395, 396),
    (398, 477), (399, 601), (400, 603), (401, 402), (403, 608), (404, 611), (406, 617),
    (407, 616), (408, 409), (412, 623), (413, 626), (415, 629), (416, 417), (418, 419),
    (420, 421), (422, 640), (423, 424), (425, 643), (428, 429), (430, 648), (431, 432),
    (433, 650), (434, 651), (435, 436), (437, 438), (439, 658), (440, 441), (444, 445),
    (452, 454), (453, 454), (455, 457), (456, 457), (458, 460), (459, 460), (461, 462),
    (463, 464), (465, 466), (467, 468), (469, 470), (471, 472), (473, 474), (475, 476),
    (478, 479), (480, 481), (482, 483), (484, 485), (486, 487), (488, 489), (490, 491),
    (492, 493), (494, 495), (497, 499), (498, 499), (500, 501), (502, 405), (503, 447),
    (504, 505), (506, 507), (508, 509), (510, 511), (512, 513), (514, 515), (516, 517),
    (518, 519), (520, 521), (522, 523), (524, 525), (526, 527), (528, 529), (530, 531),
    (532, 533), (534, 535), (536, 537), (538, 539), (540, 541), (542, 543), (544, 414),
    (546, 547), (548, 549), (550, 551), (552, 553), (554, 555), (556, 557), (558, 559),
    (560, 561), (562, 563), (570, 11365), (571, 572), (573, 410), (574, 11366), (577, 578),
    (579, 384), (580, 649), (581, 652), (582, 583), (584, 585), (586, 587), (588, 589),
    (590, 591), (880, 881), (882, 883), (886, 887), (895, 1011), (902, 940), (904, 941),
    (905, 942), (906, 943), (908, 972), (910, 973), (911, 974), (913, 945), (914, 946),
    (915, 947), (916, 948), (917, 949), (918, 950), (919, 951), (920, 952), (921, 953),
    (922, 954), (923, 955), (924, 956), (925, 957), (926, 958), (927, 959), (928, 960),
    (929, 961), (931, 963), (932, 964), (933, 965), (934, 966), (935, 967), (936, 968),
    (937, 969), (938, 970), (939, 971), (975, 983), (984, 985), (986, 987), (988, 989),
    (990, 991), (992, 993), (994, 995), (996, 997), (998, 999), (1000, 1001), (1002, 1003),
    (1004, 1005), (1006, 1007), (1012, 952), (1015, 1016), (1017, 1010), (1018, 1019), (1021, 891),
    (1022, 892), (1023, 893), (1024, 1104), (1025, 1105), (1026, 1106), (1027, 1107), (1028, 1108),
    (1029, 1109), (1030, 1110), (1031, 1111), (1032, 1112), (1033, 1113), (1034, 1114), (1035, 1115),
    (1036, 1116), (1037, 1117), (1038, 1118), (1039, 1119), (1040, 1072), (1041, 1073), (1042, 1074),
    (1043, 1075), (1044, 1076), (1045, 1077), (1046, 1078), (1047, 1079), (1048, 1080), (1049, 1081),
    (1050, 1082), (1051, 1083), (1052, 1084), (1053, 1085), (1054, 1086), (1055, 1087), (1056, 1088),
    (1057, 1089), (1058, 1090), (1059, 1091), (1060, 1092), (1061, 1093), (1062, 1094), (1063, 1095),
    (1064, 1096), (1065, 1097), (1066, 1098), (1067, 1099), (1068, 1100), (1069, 1101), (1070, 1102),
    (1071, 1103), (1120, 1121), (1122, 1123), (1124, 1125), (1126, 1127), (1128, 1129), (1130, 1131),
    (1132, 1133), (1134, 1135), (1136, 1137), (1138, 1139), (1140, 1141), (1142, 1143), (1144, 1145),
    (1146, 1147), (1148, 1149), (1150, 1151), (1152, 1153), (1162, 1163), (1164, 1165), (1166, 1167),
    (1168, 1169), (1170, 1171), (1172, 1173), (1174, 1175), (1176, 1177), (1178, 1179), (1180, 1181),
    (1182, 1183), (1184, 1185), (1186, 1187), (1188, 1189), (1190, 1191), (1192, 1193), (1194, 1195),
    (1196, 1197), (1198, 1199), (1200, 1201), (1202, 1203), (1204, 1205), (1206, 1207), (1208, 1209),
    (1210, 1211), (1212, 1213), (1214, 1215), (1216, 1231), (1217, 1218), (1219, 1220), (1221, 1222),
    (1223, 1224), (1225, 1226), (1227, 1228), (1229, 1230), (1232, 1233), (1234, 1235), (1236, 1237),
    (1238, 1239), (1240, 1241), (1242, 1243), (1244, 1245), (1246, 1247), (1248, 1249), (1250, 1251),
    (1252, 1253), (1254, 1255), (1256, 1257), (1258, 1259), (1260, 1261), (1262, 1263), (1264, 1265),
    (1266, 1267), (1268, 1269), (1270, 1271), (1272, 1273), (1274, 1275), (1276, 1277), (1278, 1279),
    (1280, 1281), (1282, 1283), (1284, 1285), (1286, 1287), (1288, 1289), (1290, 1291), (1292, 1293),
    (1294, 1295), (1296, 1297), (1298, 1299), (1300, 1301), (1302, 1303), (1304, 1305), (1306, 1307),
    (1308, 1309), (1310, 1311), (1312, 1313), (1314, 1315), (1316, 1317), (1318, 1319), (1320, 1321),
    (1322, 1323), (1324, 1325), (1326, 1327), (1329, 1377), (1330, 1378), (1331, 1379), (1332, 1380),
    (1333, 1381), (1334, 1382), (1335, 1383), (1336, 1384), (1337, 1385), (1338, 1386), (1339, 1387),
    (1340, 1388), (1341, 1389), (1342, 1390), (1343, 1391), (1344, 1392), (1345, 1393), (1346, 1394),
    (1347, 1395), (1348, 1396), (1349, 1397), (1350, 1398), (1351, 1399), (1352, 1400), (1353, 1401),
    (1354, 1402), (1355, 1403), (1356, 1404), (1357, 1405), (1358, 1406), (1359, 1407), (1360, 1408),
    (1361, 1409), (1362, 1410), (1363, 1411), (1364, 1412), (1365, 1413), (1366, 1414), (4256, 11520),
    (4257, 11521), (4258, 11522), (4259, 11523), (4260, 11524), (4261, 11525), (4262, 11526), (4263, 11527),
    (4264, 11528), (4265, 11529), (4266, 11530), (4267, 11531), (4268, 11532), (4269, 11533), (4270, 11534),
    (4271, 11535), (4272, 11536), (4273, 11537), (4274, 11538), (4275, 11539), (4276, 11540), (4277, 11541),
    (4278, 11542), (4279, 11543), (4280, 11544), (4281, 11545), (4282, 11546), (4283, 11547), (4284, 11548),
    (4285, 11549), (4286, 11550), (4287, 11551), (4288, 11552), (4289, 11553), (4290, 11554), (4291, 11555),
    (4292, 11556), (4293, 11557), (4295, 11559), (4301, 11565), (5024, 43888), (5025, 43889), (5026, 43890),
    (5027, 43891), (5028, 43892), (5029, 43893), (5030, 43894), (5031, 43895), (5032, 43896), (5033, 43897),
    (5034, 43898), (5035, 43899), (5036, 43900), (5037, 43901), (5038, 43902), (5039, 43903), (5040, 43904),
    (5041, 43905), (5042, 43906), (5043, 43907), (5044, 43908), (5045, 43909), (5046, 43910), (5047, 43911),
    (5048, 43912), (5049, 43913), (5050, 43914), (5051, 43915), (5052, 43916), (5053, 43917), (5054, 43918),
    (5055, 43919), (5056, 43920), (5057, 43921), (5058, 43922), (5059, 43923), (5060, 43924), (5061, 43925),
    (5062, 43926), (5063, 43927), (5064, 43928), (5065, 43929), (5066, 43930), (5067, 43931), (5068, 43932),
    (5069, 43933), (5070, 43934), (5071, 43935), (5072, 43936), (5073, 43937), (5074, 43938), (5075, 43939),
    (5076, 43940), (5077, 43941), (5078, 43942), (5079, 43943), (5080, 43944), (5081, 43945), (5082, 43946),
    (5083, 43947), (5084, 43948), (5085, 43949), (5086, 43950), (5087, 43951), (5088, 43952), (5089, 43953),
    (5090, 43954), (5091, 43955), (5092, 43956), (5093, 43957), (5094, 43958), (5095, 43959), (5096, 43960),
    (5097, 43961), (5098, 43962), (5099, 43963), (5100, 43964), (5101, 43965), (5102, 43966), (5103, 43967),
    (5104, 5112), (5105, 5113), (5106, 5114), (5107, 5115), (5108, 5116), (5109, 5117), (7312, 4304),
    (7313, 4305), (7314, 4306), (7315, 4307), (7316, 4308), (7317, 4309), (7318, 4310), (7319, 4311),
    (7320, 4312), (7321, 4313), (7322, 4314), (7323, 4315), (7324, 4316), (7325, 4317), (7326, 4318),
    (7327, 4319), (7328, 4320), (7329, 4321), (7330, 4322), (7331, 4323), (7332, 4324), (7333, 4325),
    (7334, 4326), (7335, 4327), (7336, 4328), (7337, 4329), (7338, 4330), (7339, 4331), (7340, 4332),
    (7341, 4333), (7342, 4334), (7343, 4335), (7344, 4336), (7345, 4337), (7346, 4338), (7347, 4339),
    (7348, 4340), (7349, 4341), (7350, 4342), (7351, 4343), (7352, 4344), (7353, 4345), (7354, 4346),
    (7357, 4349), (7358, 4350), (7359, 4351), (7680, 7681), (7682, 7683), (7684, 7685), (7686, 7687),
    (7688, 7689), (7690, 7691), (7692, 7693), (7694, 7695), (7696, 7697), (7698, 7699), (7700, 7701),
    (7702, 7703), (7704, 7705), (7706, 7707), (7708, 7709), (7710, 7711), (7712, 7713), (7714, 7715),
    (7716, 7717), (7718, 7719), (7720, 7721), (7722, 7723), (7724, 7725), (7726, 7727), (7728, 7729),
    (7730, 7731), (7732, 7733), (7734, 7735), (7736, 7737), (7738, 7739), (7740, 7741), (7742, 7743),
    (7744, 7745), (7746, 7747), (7748, 7749), (7750, 7751), (7752, 7753), (7754, 7755), (7756, 7757),
    (7758, 7759), (7760, 7761), (7762, 7763), (7764, 7765), (7766, 7767), (7768, 7769), (7770, 7771),
    (7772, 7773), (7774, 7775), (7776, 7777), (7778, 7779), (7780, 7781), (7782, 7783), (7784, 7785),
    (7786, 7787), (7788, 7789), (7790, 7791), (7792, 7793), (7794, 7795), (7796, 7797), (7798, 7799),
    (7800, 7801), (7802, 7803), (7804, 7805), (7806, 7807), (7808, 7809), (7810, 7811), (7812, 7813),
    (7814, 7815), (7816, 7817), (7818, 7819), (7820, 7821), (7822, 7823), (7824, 7825), (7826, 7827),
    (7828, 7829), (7838, 223), (7840, 7841), (7842, 7843), (7844, 7845), (7846, 7847), (7848, 7849),
    (7850, 7851), (7852, 7853), (7854, 7855), (7856, 7857), (7858, 7859), (7860, 7861), (7862, 7863),
    (7864, 7865), (7866, 7867), (7868, 7869), (7870, 7871), (7872, 7873), (7874, 7875), (7876, 7877),
    (7878, 7879), (7880, 7881), (7882, 7883), (7884, 7885), (7886, 7887), (7888, 7889), (7890, 7891),
    (7892, 7893), (7894, 7895), (7896, 7897), (7898, 7899), (7900, 7901), (7902, 7903), (7904, 7905),
    (7906, 7907), (7908, 7909), (7910, 7911), (7912, 7913), (7914, 7915), (7916, 7917), (7918, 7919),
    (7920, 7921), (7922, 7923), (7924, 7925), (7926, 7927), (7928, 7929), (7930, 7931), (7932, 7933),
    (7934, 7935), (7944, 7936), (7945, 7937), (7946, 7938), (7947, 7939), (7948, 7940), (7949, 7941),
    (7950, 7942), (7951, 7943), (7960, 7952), (7961, 7953), (7962, 7954), (7963, 7955), (7964, 7956),
    (7965, 7957), (7976, 7968), (7977, 7969), (7978, 7970), (7979, 7971), (7980, 7972), (7981, 7973),
    (7982, 7974), (7983, 7975), (7992, 7984), (7993, 7985), (7994, 7986), (7995, 7987), (7996, 7988),
    (7997, 7989), (7998, 7990), (7999, 7991), (8008, 8000), (8009, 8001), (8010, 8002), (8011, 8003),
    (8012, 8004), (8013, 8005), (8025, 8017), (8027, 8019), (8029, 8021), (8031, 8023), (8040, 8032),
    (8041, 8033), (8042, 8034), (8043, 8035), (8044, 8036), (8045, 8037), (8046, 8038), (8047, 8039),
    (8072, 8064), (8073, 8065), (8074, 8066), (8075, 8067), (8076, 8068), (8077, 8069), (8078, 8070),
    (8079, 8071), (8088, 8080), (8089, 8081), (8090, 8082), (8091, 8083), (8092, 8084), (8093, 8085),
    (8094, 8086), (8095, 8087), (8104, 8096), (8105, 8097), (8106, 8098), (8107, 8099), (8108, 8100),
    (8109, 8101), (8110, 8102), (8111, 8103), (8120, 8112), (8121, 8113), (8122, 8048), (8123, 8049),
    (8124, 8115), (8136, 8050), (8137, 8051), (8138, 8052), (8139, 8053), (8140, 8131), (8152, 8144),
    (8153, 8145), (8154, 8054), (8155, 8055), (8168, 8160), (8169, 8161), (8170, 8058), (8171, 8059),
    (8172, 8165), (8184, 8056), (8185, 8057), (8186, 8060), (8187, 8061), (8188, 8179), (8486, 969),
    (8490, 107), (8491, 229), (8498, 8526), (8544, 8560), (8545, 8561), (8546, 8562), (8547, 8563),
    (8548, 8564), (8549, 8565), (8550, 8566), (8551, 8567), (8552, 8568), (8553, 8569), (8554, 8570),
    (8555, 8571), (8556, 8572), (8557, 8573), (8558, 8574), (8559, 8575), (8579, 8580), (9398, 9424),
    (9399, 9425), (9400, 9426), (9401, 9427), (9402, 9428), (9403, 9429), (9404, 9430), (9405, 9431),
    (9406, 9432), (9407, 9433), (9408, 9434), (9409, 9435), (9410, 9436), (9411, 9437), (9412, 9438),
    (9413, 9439), (9414, 9440), (9415, 9441), (9416, 9442), (9417, 9443), (9418, 9444), (9419, 9445),
    (9420, 9446), (9421, 9447), (9422, 9448), (9423, 9449), (11264, 11312), (11265, 11313), (11266, 11314),
    (11267, 11315), (11268, 11316), (11269, 11317), (11270, 11318), (11271, 11319), (11272, 11320), (11273, 11321),
    (11274, 11322), (11275, 11323), (11276, 11324), (11277, 11325), (11278, 11326), (11279, 11327), (11280, 11328),
    (11281, 11329), (11282, 11330), (11283, 11331), (11284, 11332), (11285, 11333), (11286, 11334), (11287, 11335),
    (11288, 11336), (11289, 11337), (11290, 11338), (11291, 11339), (11292, 11340), (11293, 11341), (11294, 11342),
    (11295, 11343), (11296, 11344), (11297, 11345), (11298, 11346), (11299, 11347), (11300, 11348), (11301, 11349),
    (11302, 11350), (11303, 11351), (11304, 11352), (11305, 11353), (11306, 11354), (11307, 11355), (11308, 11356),
    (11309, 11357), (11310, 11358), (11311, 11359), (11360, 11361), (11362, 619), (11363, 7549), (11364, 637),
    (11367, 11368), (11369, 11370), (11371, 11372), (11373, 593), (11374, 625), (11375, 592), (11376, 594),
    (11378, 11379), (11381, 11382), (11390, 575), (11391, 576), (11392, 11393), (11394, 11395), (11396, 11397),
    (11398, 11399), (11400, 11401), (11402, 11403), (11404, 11405), (11406, 11407), (11408, 11409), (11410, 11411),
    (11412, 11413), (11414, 11415), (11416, 11417), (11418, 11419), (11420, 11421), (11422, 11423), (11424, 11425),
    (11426, 11427), (11428, 11429), (11430, 11431), (11432, 11433), (11434, 11435), (11436, 11437), (11438, 11439),
    (11440, 11441), (11442, 11443), (11444, 11445), (11446, 11447), (11448, 11449), (11450, 11451), (11452, 11453),
    (11454, 11455), (11456, 11457), (11458, 11459), (11460, 11461), (11462, 11463), (11464, 11465), (11466, 11467),
    (11468, 11469), (11470, 11471), (11472, 11473), (11474, 11475), (11476, 11477), (11478, 11479), (11480, 11481),
    (11482, 11483), (11484, 11485), (11486, 11487), (11488, 11489), (11490, 11491), (11499, 11500), (11501, 11502),
    (11506, 11507), (42560, 42561), (42562, 42563), (42564, 42565), (42566, 42567), (42568, 42569), (42570, 42571),
    (42572, 42573), (42574, 42575), (42576, 42577), (42578, 42579), (42580, 42581), (42582, 42583), (42584, 42585),
    (42586, 42587), (42588, 42589), (42590, 42591), (42592, 42593), (42594, 42595), (42596, 42597), (42598, 42599),
    (42600, 42601), (42602, 42603), (42604, 42605), (42624, 42625), (42626, 42627), (42628, 42629), (42630, 42631),
    (42632, 42633), (42634, 42635), (42636, 42637), (42638, 42639), (42640, 42641), (42642, 42643), (42644, 42645),
    (42646, 42647), (42648, 42649), (42650, 42651), (42786, 42787), (42788, 42789), (42790, 42791), (42792, 42793),
    (42794, 42795), (42796, 42797), (42798, 42799), (42802, 42803), (42804, 42805), (42806, 42807), (42808, 42809),
    (42810, 42811), (42812, 42813), (42814, 42815), (42816, 42817), (42818, 42819), (42820, 42821), (42822, 42823),
    (42824, 42825), (42826, 42827), (42828, 42829), (42830, 42831), (42832, 42833), (42834, 42835), (42836, 42837),
    (42838, 42839), (42840, 42841), (42842, 42843), (42844, 42845), (42846, 42847), (42848, 42849), (42850, 42851),
    (42852, 42853), (42854, 42855), (42856, 42857), (42858, 42859), (42860, 42861), (42862, 42863), (42873, 42874),
    (42875, 42876), (42877, 7545), (42878, 42879), (42880, 42881), (42882, 42883), (42884, 42885), (42886, 42887),
    (42891, 42892), (42893, 613), (42896, 42897), (42898, 42899), (42902, 42903), (42904, 42905), (42906, 42907),
    (42908, 42909), (42910, 42911), (42912, 42913), (42914, 42915), (42916, 42917), (42918, 42919), (42920, 42921),
    (42922, 614), (42923, 604), (42924, 609), (42925, 620), (42926, 618), (42928, 670), (42929, 647),
    (42930, 669), (42931, 43859), (42932, 42933), (42934, 42935), (42936, 42937), (42938, 42939), (42940, 42941),
    (42942, 42943), (42944, 42945), (42946, 42947), (42948, 42900), (42949, 642), (42950, 7566), (42951, 42952),
    (42953, 42954), (42960, 42961), (42966, 42967), (42968, 42969), (42997, 42998), (65313, 65345), (65314, 65346),
    (65315, 65347), (65316, 65348), (65317, 65349), (65318, 65350), (65319, 65351), (65320, 65352), (65321, 65353),
    (65322, 65354), (65323, 65355), (65324, 65356), (65325, 65357), (65326, 65358), (65327, 65359), (65328, 65360),
    (65329, 65361), (65330, 65362), (65331, 65363), (65332, 65364), (65333, 65365), (65334, 65366), (65335, 65367),
    (65336, 65368), (65337, 65369), (65338, 65370), (66560, 66600), (66561, 66601), (66562, 66602), (66563, 66603),
    (66564, 66604), (66565, 66605), (66566, 66606), (66567, 66607), (66568, 66608), (66569, 66609), (66570, 66610),
    (66571, 66611), (66572, 66612), (66573, 66613), (66574, 66614), (66575, 66615), (66576, 66616), (66577, 66617),
    (66578, 66618), (66579, 66619), (66580, 66620), (66581, 66621), (66582, 66622), (66583, 66623), (66584, 66624),
    (66585, 66625), (66586, 66626), (66587, 66627), (66588, 66628), (66589, 66629), (66590, 66630), (66591, 66631),
    (66592, 66632), (66593, 66633), (66594, 66634), (66595, 66635), (66596, 66636), (66597, 66637), (66598, 66638),
    (66599, 66639), (66736, 66776), (66737, 66777), (66738, 66778), (66739, 66779), (66740, 66780), (66741, 66781),
    (66742, 66782), (66743, 66783), (66744, 66784), (66745, 66785), (66746, 66786), (66747, 66787), (66748, 66788),
    (66749, 66789), (66750, 66790), (66751, 66791), (66752, 66792), (66753, 66793), (66754, 66794), (66755, 66795),
    (66756, 66796), (66757, 66797), (66758, 66798), (66759, 66799), (66760, 66800), (66761, 66801), (66762, 66802),
    (66763, 66803), (66764, 66804), (66765, 66805), (66766, 66806), (66767, 66807), (66768, 66808), (66769, 66809),
    (66770, 66810), (66771, 66811), (66928, 66967), (66929, 66968), (66930, 66969), (66931, 66970), (66932, 66971),
    (66933, 66972), (66934, 66973), (66935, 66974), (66936, 66975), (66937, 66976), (66938, 66977), (66940, 66979),
    (66941, 66980), (66942, 66981), (66943, 66982), (66944, 66983), (66945, 66984), (66946, 66985), (66947, 66986),
    (66948, 66987), (66949, 66988), (66950, 66989), (66951, 66990), (66952, 66991), (66953, 66992), (66954, 66993),
    (66956, 66995), (66957, 66996), (66958, 66997), (66959, 66998), (66960, 66999), (66961, 67000), (66962, 67001),
    (66964, 67003), (66965, 67004), (68736, 68800), (68737, 68801), (68738, 68802), (68739, 68803), (68740, 68804),
    (68741, 68805), (68742, 68806), (68743, 68807), (68744, 68808), (68745, 68809), (68746, 68810), (68747, 68811),
    (68748, 68812), (68749, 68813), (68750, 68814), (68751, 68815), (68752, 68816), (68753, 68817), (68754, 68818),
    (68755, 68819), (68756, 68820), (68757, 68821), (68758, 68822), (68759, 68823), (68760, 68824), (68761, 68825),
    (68762, 68826), (68763, 68827), (68764, 68828), (68765, 68829), (68766, 68830), (68767, 68831), (68768, 68832),
    (68769, 68833), (68770, 68834), (68771, 68835), (68772, 68836), (68773, 68837), (68774, 68838), (68775, 68839),
    (68776, 68840), (68777, 68841), (68778, 68842), (68779, 68843), (68780, 68844), (68781, 68845), (68782, 68846),
    (68783, 68847), (68784, 68848), (68785, 68849), (68786, 68850), (71840, 71872), (71841, 71873), (71842, 71874),
    (71843, 71875), (71844, 71876), (71845, 71877), (71846, 71878), (71847, 71879), (71848, 71880), (71849, 71881),
    (71850, 71882), (71851, 71883), (71852, 71884), (71853, 71885), (71854, 71886), (71855, 71887), (71856, 71888),
    (71857, 71889), (71858, 71890), (71859, 71891), (71860, 71892), (71861, 71893), (71862, 71894), (71863, 71895),
    (71864, 71896), (71865, 71897), (71866, 71898), (71867, 71899), (71868, 71900), (71869, 71901), (71870, 71902),
    (71871, 71903), (93760, 93792), (93761, 93793), (93762, 93794), (93763, 93795), (93764, 93796), (93765, 93797),
    (93766, 93798), (93767, 93799), (93768, 93800), (93769, 93801), (93770, 93802), (93771, 93803), (93772, 93804),
    (93773, 93805), (93774, 93806), (93775, 93807), (93776, 93808), (93777, 93809), (93778, 93810), (93779, 93811),
    (93780, 93812), (93781, 93813), (93782, 93814), (93783, 93815), (93784, 93816), (93785, 93817), (93786, 93818),
    (93787, 93819), (93788, 93820), (93789, 93821), (93790, 93822), (93791, 93823), (125184, 125218), (125185, 125219),
    (125186, 125220), (125187, 125221), (125188, 125222), (125189, 125223), (125190, 125224), (125191, 125225), (125192, 125226),
    (125193, 125227), (125194, 125228), (125195, 125229), (125196, 125230), (125197, 125231), (125198, 125232), (125199, 125233),
    (125200, 125234), (125201, 125235), (125202, 125236), (125203, 125237), (125204, 125238), (125205, 125239), (125206, 125240),
    (125207, 125241), (125208, 125242), (125209, 125243), (125210, 125244), (125211, 125245), (125212, 125246), (125213, 125247),
    (125214, 125248), (125215, 125249), (125216, 125250), (125217, 125251)
  ]

set_option maxHeartbeats 2000000 in
/-- The Case_Ignorable codepoints (Unicode 14.0.0), as inclusive ranges. -/
def caseIgnorableRanges : List (Nat × Nat) := [
    (39, 39), (46, 46), (58, 58), (94, 94), (96, 96), (168, 168), (173, 173),
    (175, 175), (180, 180), (183, 184), (688, 879), (884, 885), (890, 890), (900, 901),
    (903, 903), (1155, 1161), (1369, 1369), (1375, 1375), (1425, 1469), (1471, 1471), (1473, 1474),
    (1476, 1477), (1479, 1479), (1524, 1524), (1536, 1541), (1552, 1562), (1564, 1564), (1600, 1600),
    (1611, 1631), (1648, 1648), (1750, 1757), (1759, 1768), (1770, 1773), (1807, 1807), (1809, 1809),
    (1840, 1866), (1958, 1968), (2027, 2037), (2042, 2042), (2045, 2045), (2070, 2093), (2137, 2139),
    (2184, 2184), (2192, 2193), (2200, 2207), (2249, 2306), (2362, 2362), (2364, 2364), (2369, 2376),
    (2381, 2381), (2385, 2391), (2402, 2403), (2417, 2417), (2433, 2433), (2492, 2492), (2497, 2500),
    (2509, 2509), (2530, 2531), (2558, 2558), (2561, 2562), (2620, 2620), (2625, 2626), (2631, 2632),
    (2635, 2637), (2641, 2641), (2672, 2673), (2677, 2677), (2689, 2690), (2748, 2748), (2753, 2757),
    (2759, 2760), (2765, 2765), (2786, 2787), (2810, 2815), (2817, 2817), (2876, 2876), (2879, 2879),
    (2881, 2884), (2893, 2893), (2901, 2902), (2914, 2915), (2946, 2946), (3008, 3008), (3021, 3021),
    (3072, 3072), (3076, 3076), (3132, 3132), (3134, 3136), (3142, 3144), (3146, 3149), (3157, 3158),
    (3170, 3171), (3201, 3201), (3260, 3260), (3263, 3263), (3270, 3270), (3276, 3277), (3298, 3299),
    (3328, 3329), (3387, 3388), (3393, 3396), (3405, 3405), (3426, 3427), (3457, 3457), (3530, 3530),
    (3538, 3540), (3542, 3542), (3633, 3633), (3636, 3642), (3654, 3662), (3761, 3761), (3764, 3772),
    (3782, 3782), (3784, 3789), (3864, 3865), (3893, 3893), (3895, 3895), (3897, 3897), (3953, 3966),
    (3968, 3972), (3974, 3975), (3981, 3991), (3993, 4028), (4038, 4038), (4141, 4144), (4146, 4151),
    (4153, 4154), (4157, 4158), (4184, 4185), (4190, 4192), (4209, 4212), (4226, 4226), (4229, 4230),
    (4237, 4237), (4253, 4253), (4348, 4348), (4957, 4959), (5906, 5908), (5938, 5939), (5970, 5971),
    (6002, 6003), (6068, 6069), (6071, 6077), (6086, 6086), (6089, 6099), (6103, 6103), (6109, 6109),
    (6155, 6159), (6211, 6211), (6277, 6278), (6313, 6313), (6432, 6434), (6439, 6440), (6450, 6450),
    (6457, 6459), (6679, 6680), (6683, 6683), (6742, 6742), (6744, 6750), (6752, 6752), (6754, 6754),
    (6757, 6764), (6771, 6780), (6783, 6783), (6823, 6823), (6832, 6862), (6912, 6915), (6964, 6964),
    (6966, 6970), (6972, 6972), (6978, 6978), (7019, 7027), (7040, 7041), (7074, 7077), (7080, 7081),
    (7083, 7085), (7142, 7142), (7144, 7145), (7149, 7149), (7151, 7153), (7212, 7219), (7222, 7223),
    (7288, 7293), (7376, 7378), (7380, 7392), (7394, 7400), (7405, 7405), (7412, 7412), (7416, 7417),
    (7468, 7530), (7544, 7544), (7579, 7679), (8125, 8125), (8127, 8129), (8141, 8143), (8157, 8159),
    (8173, 8175), (8189, 8190), (8203, 8207), (8216, 8217), (8228, 8228), (8231, 8231), (8234, 8238),
    (8288, 8292), (8294, 8303), (8305, 8305), (8319, 8319), (8336, 8348), (8400, 8432), (11388, 11389),
    (11503, 11505), (11631, 11631), (11647, 11647), (11744, 11775), (11823, 11823), (12293, 12293), (12330, 12333),
    (12337, 12341), (12347, 12347), (12441, 12446), (12540, 12542), (40981, 40981), (42232, 42237), (42508, 42508),
    (42607, 42610), (42612, 42621), (42623, 42623), (42652, 42655), (42736, 42737), (42752, 42785), (42864, 42864),
    (42888, 42890), (42994, 42996), (43000, 43001), (43010, 43010), (43014, 43014), (43019, 43019), (43045, 43046),
    (43052, 43052), (43204, 43205), (43232, 43249), (43263, 43263), (43302, 43309), (43335, 43345), (43392, 43394),
    (43443, 43443), (43446, 43449), (43452, 43453), (43471, 43471), (43493, 43494), (43561, 43566), (43569, 43570),
    (43573, 43574), (43587, 43587), (43596, 43596), (43632, 43632), (43644, 43644), (43696, 43696), (43698, 43700),
    (43703, 43704), (43710, 43711), (43713, 43713), (43741, 43741), (43756, 43757), (43763, 43764), (43766, 43766),
    (43867, 43871), (43881, 43883), (44005, 44005), (44008, 44008), (44013, 44013), (64286, 64286), (64434, 64450),
    (65024, 65039), (65043, 65043), (65056, 65071), (65106, 65106), (65109, 65109), (65279, 65279), (65287, 65287),
    (65294, 65294), (65306, 65306), (65342, 65342), (65344, 65344), (65392, 65392), (65438, 65439), (65507, 65507),
    (65529, 65531), (66045, 66045), (66272, 66272), (66422, 66426), (67456, 67461), (67463, 67504), (67506, 67514),
    (68097, 68099), (68101, 68102), (68108, 68111), (68152, 68154), (68159, 68159), (68325, 68326), (68900, 68903),
    (69291, 69292), (69446, 69456), (69506, 69509), (69633, 69633), (69688, 69702), (69744, 69744), (69747, 69748),
    (69759, 69761), (69811, 69814), (69817, 69818), (69821, 69821), (69826, 69826), (69837, 69837), (69888, 69890),
    (69927, 69931), (69933, 69940), (70003, 70003), (70016, 70017), (70070, 70078), (70089, 70092), (70095, 70095),
    (70191, 70193), (70196, 70196), (70198, 70199), (70206, 70206), (70367, 70367), (70371, 70378), (70400, 70401),
    (70459, 70460), (70464, 70464), (70502, 70508), (70512, 70516), (70712, 70719), (70722, 70724), (70726, 70726),
    (70750, 70750), (70835, 70840), (70842, 70842), (70847, 70848), (70850, 70851), (71090, 71093), (71100, 71101),
    (71103, 71104), (71132, 71133), (71219, 71226), (71229, 71229), (71231, 71232), (71339, 71339), (71341, 71341),
    (71344, 71349), (71351, 71351), (71453, 71455), (71458, 71461), (71463, 71467), (71727, 71735), (71737, 71738),
    (71995, 71996), (71998, 71998), (72003, 72003), (72148, 72151), (72154, 72155), (72160, 72160), (72193, 72202),
    (72243, 72248), (72251, 72254), (72263, 72263), (72273, 72278), (72281, 72283), (72330, 72342), (72344, 72345),
    (72752, 72758), (72760, 72765), (72767, 72767), (72850, 72871), (72874, 72880), (72882, 72883), (72885, 72886),
    (73009, 73014), (73018, 73018), (73020, 73021), (73023, 73029), (73031, 73031), (73104, 73105), (73109, 73109),
    (73111, 73111), (73459, 73460), (78896, 78904), (92912, 92916), (92976, 92982), (92992, 92995), (94031, 94031),
    (94095, 94111), (94176, 94177), (94179, 94180), (110576, 110579), (110581, 110587), (110589, 110590), (113821, 113822),
    (113824, 113827), (118528, 118573), (118576, 118598), (119143, 119145), (119155, 119170), (119173, 119179), (119210, 119213),
    (119362, 119364), (121344, 121398), (121403, 121452), (121461, 121461), (121476, 121476), (121499, 121503), (121505, 121519),
    (122880, 122886), (122888, 122904), (122907, 122913), (122915, 122916), (122918, 122922), (123184, 123197), (123566, 123566),
    (123628, 123631), (125136, 125142), (125252, 125259), (127995, 127999), (917505, 917505), (917536, 917631), (917760, 917999)
  ]

set_option maxHeartbeats 2000000 in
/-- The Cased codepoints that are not Case_Ignorable (Unicode 14.0.0), as
inclusive ranges; the Final_Sigma context scan skips Case_Ignorable
characters, so only these are ever consulted for casedness. -/
def casedRanges : List (Nat × Nat) := [
    (65, 90), (97, 122), (170, 170), (181, 181), (186, 186), (192, 214), (216, 246),
    (248, 442), (444, 447), (452, 659), (661, 687), (880, 883), (886, 887), (891, 893),
    (895, 895), (902, 902), (904, 906), (908, 908), (910, 929), (931, 1013), (1015, 1153),
    (1162, 1327), (1329, 1366), (1376, 1416), (4256, 4293), (4295, 4295), (4301, 4301), (4304, 4346),
    (4349, 4351), (5024, 5109), (5112, 5117), (7296, 7304), (7312, 7354), (7357, 7359), (7424, 7467),
    (7531, 7543), (7545, 7578), (7680, 7957), (7960, 7965), (7968, 8005), (8008, 8013), (8016, 8023),
    (8025, 8025), (8027, 8027), (8029, 8029), (8031, 8061), (8064, 8116), (8118, 8124), (8126, 8126),
    (8130, 8132), (8134, 8140), (8144, 8147), (8150, 8155), (8160, 8172), (8178, 8180), (8182, 8188),
    (8450, 8450), (8455, 8455), (8458, 8467), (8469, 8469), (8473, 8477), (8484, 8484), (8486, 8486),
    (8488, 8488), (8490, 8493), (8495, 8500), (8505, 8505), (8508, 8511), (8517, 8521), (8526, 8526),
    (8544, 8575), (8579, 8580), (9398, 9449), (11264, 11387), (11390, 11492), (11499, 11502), (11506, 11507),
    (11520, 11557), (11559, 11559), (11565, 11565), (42560, 42605), (42624, 42651), (42786, 42863), (42865, 42887),
    (42891, 42894), (42896, 42954), (42960, 42961), (42963, 42963), (42965, 42969), (42997, 42998), (43002, 43002),
    (43824, 43866), (43872, 43880), (43888, 43967), (64256, 64262), (64275, 64279), (65313, 65338), (65345, 65370),
    (66560, 66639), (66736, 66771), (66776, 66811), (66928, 66938), (66940, 66954), (66956, 66962), (66964, 66965),
    (66967, 66977), (66979, 66993), (66995, 67001), (67003, 67004), (68736, 68786), (68800, 68850), (71840, 71903),
    (93760, 93823), (119808, 119892), (119894, 119964), (119966, 119967), (119970, 119970), (119973, 119974), (119977, 119980),
    (119982, 119993), (119995, 119995), (119997, 120003), (120005, 120069), (120071, 120074), (120077, 120084), (120086, 120092),
    (120094, 120121), (120123, 120126), (120128, 120132), (120134, 120134), (120138, 120144), (120146, 120485), (120488, 120512),
    (120514, 120538), (120540, 120570), (120572, 120596), (120598, 120628), (120630, 120654), (120656, 120686), (120688, 120712),
    (120714, 120744), (120746, 120770), (120772, 120779), (122624, 122633), (122635, 122654), (125184, 125251), (127280, 127305),
    (127312, 127337), (127344, 127369)
  ]

/-- Membership of a codepoint in a list of inclusive ranges. -/
def inRanges (n : Nat) (rs : List (Nat × Nat)) : Bool :=
  rs.any (fun r => decide (r.1 ≤ n) && decide (n ≤ r.2))

/-- The Case_Ignorable property of a character. -/
def isCaseIgnorable (c : Char) : Bool :=
  inRanges c.toNat caseIgnorableRanges

/-- The Cased property of a character that is not Case_Ignorable (the only
characters on which the Final_Sigma scan consults casedness). -/
def isCased (c : Char) : Bool :=
  inRanges c.toNat casedRanges

/-- The Final_Sigma context scan: skip Case_Ignorable characters, then
report whether the first other character is cased (false if none). -/
def caseIgnorableThenCased : List Char → Bool
  | [] => false
  | c :: rest => if isCaseIgnorable c then caseIgnorableThenCased rest else isCased c

/-- Model of `char::to_lowercase`: the one-to-one table, except that
U+0130 expands to U+0069 U+0307. -/
def charToLower (c : Char) : List Char :=
  if c.toNat = 304 then [Char.ofNat 105, Char.ofNat 775]
  else
    match List.lookup c.toNat lowercaseTable with
    | some n => [Char.ofNat n]
    | none => [c]

/-- Model of `str::to_lowercase`, one character at a time with the
preceding characters (in reverse) and the remaining characters as the
Final_Sigma context for U+03A3. -/
def toLowercaseAux : List Char → List Char → List Char
  | _, [] => []
  | prevRev, c :: rest =>
    (if c.toNat = 931 then
      (if caseIgnorableThenCased prevRev && ! caseIgnorableThenCased rest
        then [Char.ofNat 962] else [Char.ofNat 963])
    else charToLower c) ++ toLowercaseAux (c :: prevRev) rest

/-- Model of `str::to_lowercase`. -/
def toLowercase (s : RStr) : RStr := toLowercaseAux [] s

/-- The tier-prefix function from the source ( two_tier_prefix):
`name.chars().take(2).collect::<String>().to_lowercase()`. -/
def two_tier_prefix (name : RStr) : RStr := toLowercase (name.take 2)

/-- Model of `Path::join` with a relative component: append, inserting a
separator unless the base is empty or already ends with one. -/
def pathJoin (base comp : RStr) : RStr :=
  if base = [] then comp
  else if base.getLast? = some '/' then base ++ comp
  else base ++ '/' :: comp

/-- `is_two_tier` from the source: a two-tier store is indicated by the
presence of `index2.txt` in the root of the symbol store.  The filesystem
state at the moment of the call is the explicit predicate `fs`. -/
def is_two_tier (fs : RStr → Bool) (cache_path : RStr) : Bool :=
  fs (pathJoin cache_path ("index2.txt".data))

theorem charToLower_length (c : Char) (h : c.toNat ≠ 304) :
    (charToLower c).length = 1 := by
  simp only [charToLower]
  rw [if_neg h]
  cases h2 : List.lookup c.toNat lowercaseTable with
  | none => simp [h2]
  | some n => simp [h2]

theorem length_toLowercaseAux :
    ∀ (l p : List Char), (∀ c ∈ l, c.toNat ≠ 304) →
      (toLowercaseAux p l).length = l.length := by
  intro l
  induction l with
  | nil => intro p _; rfl
  | cons c rest ih =>
    intro p h
    have hc := h c (List.mem_cons_self c rest)
    have hrest : ∀ x ∈ rest, x.toNat ≠ 304 :=
      fun x hx => h x (List.mem_cons_of_mem c hx)
    simp only [toLowercaseAux, List.length_append, ih (c :: p) hrest,
      List.length_cons]
    by_cases hs : c.toNat = 931
    · rw [if_pos hs]
      cases hcond : (caseIgnorableThenCased p && ! caseIgnorableThenCased rest) <;>
        simp <;> omega
    · rw [if_neg hs, charToLower_length c hc]
      omega

theorem toLowercaseAux_fixed :
    ∀ (l p : List Char), (∀ c ∈ l, charToLower c = [c] ∧ c.toNat ≠ 931) →
      toLowercaseAux p l = l := by
  intro l
  induction l with
  | nil => intro p _; rfl
  | cons c rest ih =>
    intro p h
    obtain ⟨hmap, hsig⟩ := h c (List.mem_cons_self c rest)
    have hrest : ∀ x ∈ rest, charToLower x = [x] ∧ x.toNat ≠ 931 :=
      fun x hx => h x (List.mem_cons_of_mem c hx)
    simp only [toLowercaseAux]
    rw [if_neg hsig, hmap, ih (c :: p) hrest]
    rfl

theorem length_toLowercase (s : RStr) (h : ∀ c ∈ s, c.toNat ≠ 304) :
    (toLowercase s).length = s.length :=
  length_toLowercaseAux s [] h

theorem toLowercase_fixed (s : RStr)
    (h : ∀ c ∈ s, charToLower c = [c] ∧ c.toNat ≠ 931) :
    toLowercase s = s :=
  toLowercaseAux_fixed s [] h

/-- C5 counterexample: the one-character filename consisting of U+0130
(LATIN CAPITAL LETTER I WITH DOT ABOVE) lowercases to the two-character
sequence U+0069 U+0307, so the tier prefix of a shorter-than-two-character
filename is not always the filename unchanged in length. -/
theorem two_tier_prefix_length_counterexample :
    ¬ (∀ name : RStr, name.length < 2 →
        ( two_tier_prefix name).length = name.length) := by
  intro h
  have h1 := h [Char.ofNat 304] (by decide)
  have h2 : ( two_tier_prefix [Char.ofNat 304]).length = 2 := by decide
  rw [h2] at h1
  exact absurd h1 (by decide)

/-- C5 amended: the tier prefix is the Unicode lowercasing of the first
two characters of the filename; for filenames not containing U+0130 — the
one character whose lowercase mapping expands — it has exactly two
characters when the filename has two or more, and shorter filenames are
returned whole, case-folded, unchanged in length (no padding); the
function is idempotent on already-lowercase inputs of two or more
characters; `"ntdll.pdb" → "nt"`, `"NTDLL.PDB" → "nt"`, `"a" → "a"`,
`"" → ""`. -/
theorem two_tier_prefix_spec (name : RStr) :
    ( two_tier_prefix name = toLowercase (name.take 2)) ∧
    (2 ≤ name.length → (∀ c ∈ name.take 2, c.toNat ≠ 304) →
      ( two_tier_prefix name).length = 2) ∧
    (name.length < 2 → two_tier_prefix name = toLowercase name ∧
      ((∀ c ∈ name, c.toNat ≠ 304) →
        ( two_tier_prefix name).length = name.length)) ∧
    ((∀ c ∈ name, charToLower c = [c] ∧ c.toNat ≠ 931) → 2 ≤ name.length →
      two_tier_prefix ( two_tier_prefix name) = two_tier_prefix name) ∧
    two_tier_prefix ("ntdll.pdb".data) = "nt".data ∧
    two_tier_prefix ("NTDLL.PDB".data) = "nt".data ∧
    two_tier_prefix ("a".data) = "a".data ∧
    two_tier_prefix ([] : RStr) = [] := by
  refine ⟨rfl, ?_, ?_, ?_, by decide, by decide, by decide, rfl⟩
  · intro hlen h304
    have hl := length_toLowercase (name.take 2) h304
    simp only [ two_tier_prefix, hl, List.length_take]
    omega
  · intro hlen
    have htake : name.take 2 = name := List.take_of_length_le (by omega)
    constructor
    · simp only [ two_tier_prefix, htake]
    · intro h304
      simp only [ two_tier_prefix, htake]
      exact length_toLowercase name h304
  · intro hfix hlen
    have hsub : ∀ c ∈ name.take 2, charToLower c = [c] ∧ c.toNat ≠ 931 :=
      fun c hc => hfix c (List.take_subset 2 name hc)
    have h1 : two_tier_prefix name = name.take 2 := by
      simp only [ two_tier_prefix]
      exact toLowercase_fixed (name.take 2) hsub
    rw [h1]
    simp only [ two_tier_prefix, List.take_take]
    have hmin : min 2 2 = 2 := rfl
    rw [hmin]
    exact toLowercase_fixed (name.take 2) hsub

/-- Witness for the amended C5 at `"NTDLL.PDB"`. -/
theorem two_tier_prefix_spec_witness :
    ( two_tier_prefix ("NTDLL.PDB".data)).length = 2 :=
  (two_tier_prefix_spec ("NTDLL.PDB".data)).2.1 (by decide) (by decide)

/-- C6: two-tier detection returns true exactly when `index2.txt` exists
directly under the cache root in the filesystem state passed to that call;
the state is consulted fresh on every call, so toggling the file's
presence between two calls toggles the result. -/
theorem is_two_tier_spec (fs fs2 : RStr → Bool) (p : RStr) :
    (is_two_tier fs p = true ↔ fs (pathJoin p ("index2.txt".data)) = true) ∧
    (fs (pathJoin p ("index2.txt".data)) = true →
      fs2 (pathJoin p ("index2.txt".data)) = false →
      is_two_tier fs p = true ∧ is_two_tier fs2 p = false) :=
  ⟨Iff.rfl, fun h1 h2 => ⟨h1, h2⟩⟩

/-- Witness for C6: toggling the sentinel file toggles the detection. -/
theorem is_two_tier_spec_witness :
    is_two_tier (fun _ => true) ("cache".data) = true ∧
    is_two_tier (fun _ => false) ("cache".data) = false :=
  (is_two_tier_spec (fun _ => true) (fun _ => false) ("cache".data)).2 rfl rfl

/-! ### The retrieval orchestrator (spec §4.4; code in src/symsrv/blocking.rs
and src/symsrv/nonblocking.rs, which are not among the sources here) -/

/-- Modelled from the spec: the §4.3 relative storage suffix
`<filename>/<hash>/<filename>` (the per-server code that builds it lives in
the missing blocking/nonblocking modules). -/
def relSuffix (filename hash : RStr) : RStr :=
  pathJoin (pathJoin filename hash) filename

/-- Modelled from the spec: the §4.3 on-disk path for a file under a cache
root — the relative suffix, sharded under the two-character tier directory
when the cache root is two-tier. -/
def localCachePath (fs : RStr → Bool) (cacheRoot filename hash : RStr) : RStr :=
  if is_two_tier fs cacheRoot then
    pathJoin (pathJoin cacheRoot ( two_tier_prefix filename)) (relSuffix filename hash)
  else pathJoin cacheRoot (relSuffix filename hash)

/-- Result of one transport call for one server. -/
inductive FetchResult where
  | ok
  | notFound
  | transportError
deriving DecidableEq

/-- `DownloadStatus` plus the exhausted-failure outcomes of spec §4.4. -/
inductive RetrievalOutcome where
  | alreadyExists
  | downloadedOk
  | failedNotFound
  | failedTransport
deriving DecidableEq

/-- Modelled from the spec: the §4.4 per-request orchestration over the
ordered server list (the orchestrator code lives in the missing
blocking/nonblocking modules).  For each server in order: a cache hit
returns `alreadyExists` immediately; otherwise the transport is called and
`ok` downloads, `notFound` falls through, and `transportError` is recorded
and falls through; exhaustion reports `failedTransport` if any transport
error was recorded, else `failedNotFound`.  The second component of the
result is the list of transport calls issued (server URL and relative
path), so that "no network call" is statable. -/
def retrieveAux (fs : RStr → Bool) (fetch : RStr → RStr → FetchResult)
    (filename hash : RStr) (sawTransportError : Bool) :
    List SymSrvSpec → RetrievalOutcome × List (RStr × RStr)
  | [] => ((if sawTransportError then .failedTransport else .failedNotFound), [])
  | srv :: rest =>
    if fs (localCachePath fs srv.cache_path filename hash) then
      (.alreadyExists, [])
    else
      match fetch srv.server_url (relSuffix filename hash) with
      | .ok => (.downloadedOk, [(srv.server_url, relSuffix filename hash)])
      | .notFound =>
        let r := retrieveAux fs fetch filename hash sawTransportError rest
        (r.1, (srv.server_url, relSuffix filename hash) :: r.2)
      | .transportError =>
        let r := retrieveAux fs fetch filename hash true rest
        (r.1, (srv.server_url, relSuffix filename hash) :: r.2)

/-- Modelled from the spec: a retrieval request starts with no recorded
transport failure. -/
def retrieve (fs : RStr → Bool) (fetch : RStr → RStr → FetchResult)
    (filename hash : RStr) (servers : List SymSrvSpec) :
    RetrievalOutcome × List (RStr × RStr) :=
  retrieveAux fs fetch filename hash false servers

/-- C8: when the file already exists on disk at the path computed against
the first server's `cache_path`, the orchestrator returns `alreadyExists`
immediately and issues no transport call. -/
theorem retrieve_cache_hit (fs : RStr → Bool) (fetch : RStr → RStr → FetchResult)
    (filename hash : RStr) (srv : SymSrvSpec) (rest : List SymSrvSpec)
    (hhit : fs (localCachePath fs srv.cache_path filename hash) = true) :
    retrieve fs fetch filename hash (srv :: rest) = (.alreadyExists, []) := by
  simp [retrieve, retrieveAux, hhit]

/-- Witness for C8 on a concrete one-server list with a full cache. -/
theorem retrieve_cache_hit_witness :
    retrieve (fun _ => true) (fun _ _ => .notFound) ("ntdll.pdb".data)
      ("000005f42000".data) [⟨"u".data, "c".data⟩] = (.alreadyExists, []) :=
  retrieve_cache_hit (fun _ => true) (fun _ _ => .notFound)
    ("ntdll.pdb".data) ("000005f42000".data) ⟨"u".data, "c".data⟩ [] rfl
